import Mathlib

/-!
# Verification of the Employee Management API backend (`main.py`)

Shallow embedding of the FastAPI backend: four JSON collections
(districts, departments, employees, attendance) modelled as Lean lists of
records, each HTTP handler modelled as a pure function from the collection
state (plus the generated id / timestamp strings, which the handlers obtain
from `uuid.uuid4()` / `datetime.now()`) to a result carrying the post state.

Python `datetime.strptime(s, "%H:%M")` is modelled for ASCII digit strings:
`%H` accepts one digit or two digits with value at most 23, `%M` accepts one
digit or two digits with value at most 59, and the whole string must be
consumed exactly (Python raises on unconverted trailing data).
-/

namespace EMApi

/-- Zero-pad a natural number to two digits, as Python `f"{m:02d}"` renders
minute values below 100. -/
def pad2 (n : Nat) : String :=
  if n < 10 then "0" ++ toString n else toString n

/-- Split a character list at every colon, as `re` matching of the
`"%H:%M"` pattern separates the hour and minute groups; the parse below
succeeds only when there are exactly two groups. -/
def splitColons : List Char → List (List Char)
  | [] => [[]]
  | c :: rest =>
    match splitColons rest with
    | [] => [[]]
    | p :: ps => if c = ':' then [] :: p :: ps else (c :: p) :: ps

/-- Numeric value of a list of ASCII digits (Python `int(...)` applied to the
matched group inside `strptime`). -/
def digitsVal (cs : List Char) : Nat :=
  cs.foldl (fun a c => a * 10 + (c.toNat - 48)) 0

/-- One `strptime` directive (`%H` with bound 23, `%M` with bound 59): one or
two ASCII digits whose value is at most `bound`. -/
def parsePart (cs : List Char) (bound : Nat) : Option Nat :=
  if (cs.length = 1 ∨ cs.length = 2) ∧ cs.all Char.isDigit then
    if digitsVal cs ≤ bound then some (digitsVal cs) else none
  else none

/-- `datetime.strptime(s, "%H:%M")`, returned as minutes since midnight:
exactly one colon, an hour group and a minute group, nothing left over. -/
def parseHM (s : String) : Option Nat :=
  match splitColons s.data with
  | [h, m] => do
    let hv ← parsePart h 23
    let mv ← parsePart m 59
    pure (hv * 60 + mv)
  | _ => none

/-- `calculate_work_hours` (main.py lines 577-592), translated clause by
clause: falsy (`None` or empty) inputs give `"0:00"`, parse failures give
`"0:00"`, `check_out_time > check_in_time` guards the computation, the
difference is taken in seconds (`diff.seconds`), one hour is subtracted when
the difference exceeds 6 hours, and the result is `f"{hours}:{minutes:02d}"`
with `hours = diff.seconds // 3600` and `minutes = (diff.seconds % 3600) // 60`. -/
def calculate_work_hours (check_in check_out : Option String) : String :=
  if (check_in.getD "").isEmpty || (check_out.getD "").isEmpty then "0:00"
  else
    match parseHM (check_in.getD ""), parseHM (check_out.getD "") with
    | some tIn, some tOut =>
      if tIn < tOut then
        let diffSec := (tOut - tIn) * 60
        let diffSec2 := if diffSec > 6 * 3600 then diffSec - 3600 else diffSec
        toString (diffSec2 / 3600) ++ ":" ++ pad2 ((diffSec2 % 3600) / 60)
      else "0:00"
    | _, _ => "0:00"

/-- The work-hours derivation as the specification words it: `"0:00"` when
either input is absent, parsing fails, or checkOut is not strictly after
checkIn; otherwise the duration in minutes, reduced by 60 minutes when it
exceeds 6 hours, rendered `"H:MM"` with hours unpadded and minutes padded. -/
def work_hours_spec (check_in check_out : Option String) : String :=
  match check_in, check_out with
  | some i, some o =>
    match parseHM i, parseHM o with
    | some tIn, some tOut =>
      if tIn < tOut then
        let d := tOut - tIn
        let d2 := if d > 6 * 60 then d - 60 else d
        toString (d2 / 60) ++ ":" ++ pad2 (d2 % 60)
      else "0:00"
    | _, _ => "0:00"
  | _, _ => "0:00"

theorem cwh_none_right (i : String) : calculate_work_hours (some i) none = "0:00" := by
  unfold calculate_work_hours
  rw [show ((none : Option String).getD "").isEmpty = true from rfl, Bool.or_true]
  rfl

theorem times_sixty_div (x : Nat) : x * 60 / 3600 = x / 60 := by omega

theorem times_sixty_mod (x : Nat) : x * 60 % 3600 / 60 = x % 60 := by omega

/-- C1: the work-hours derivation is a pure function of the two strings and
agrees everywhere with the specification's description (absent input, parse
failure or checkOut not strictly after checkIn give `"0:00"`; otherwise the
duration, less one hour when it exceeds six hours, rendered `"H:MM"`); in
particular `calc("09:00","18:00") = "8:00"` and
`calc("09:00","11:00") = "2:00"`. -/
theorem calculate_work_hours_spec_equiv :
    (∀ check_in check_out,
      calculate_work_hours check_in check_out = work_hours_spec check_in check_out)
    ∧ calculate_work_hours (some "09:00") (some "18:00") = "8:00"
    ∧ calculate_work_hours (some "09:00") (some "11:00") = "2:00"
    ∧ calculate_work_hours none (some "18:00") = "0:00"
    ∧ calculate_work_hours (some "18:00") (some "09:00") = "0:00" := by
  refine ⟨?_, by decide, by decide, by decide, by decide⟩
  intro ci co
  match ci, co with
  | none, _ => rfl
  | some i, none => exact cwh_none_right i
  | some i, some o =>
    by_cases hi : i.isEmpty
    · have hieq : i = "" := by rwa [String.isEmpty_iff] at hi
      subst hieq
      show "0:00" = work_hours_spec (some "") (some o)
      simp only [work_hours_spec]
      rw [show parseHM "" = none from rfl]
    · by_cases ho : o.isEmpty
      · have hoeq : o = "" := by rwa [String.isEmpty_iff] at ho
        subst hoeq
        simp only [calculate_work_hours, work_hours_spec, Option.getD_some]
        rw [show ("" : String).isEmpty = true from rfl, Bool.or_true,
          show parseHM "" = none from rfl]
        simp only [if_true]
        cases parseHM i <;> rfl
      · simp only [Bool.not_eq_true] at hi ho
        have hcond : (i.isEmpty || o.isEmpty) = false := by simp [hi, ho]
        simp only [calculate_work_hours, work_hours_spec, Option.getD_some]
        rw [hcond, if_neg Bool.false_ne_true]
        cases hpi : parseHM i with
        | none => rfl
        | some tIn =>
          cases hpo : parseHM o with
          | none => rfl
          | some tOut =>
            simp only
            have hiff : ((tOut - tIn) * 60 > 6 * 3600) ↔ (tOut - tIn > 6 * 60) := by omega
            by_cases hlt : tIn < tOut
            · simp only [if_pos hlt]
              by_cases hdl : tOut - tIn > 6 * 60
              · simp only [if_pos (hiff.mpr hdl), if_pos hdl]
                rw [show (tOut - tIn) * 60 - 3600 = (tOut - tIn - 60) * 60 from by omega,
                  times_sixty_div, times_sixty_mod]
              · simp only [if_neg (fun h => hdl (hiff.mp h)), if_neg hdl,
                  times_sixty_div, times_sixty_mod]
            · simp only [if_neg hlt]

/-! ## Data model

The four collections, with records as structures carrying the schema fields
(main.py lines 62-112 and the dict shapes built by the handlers). The `Dict`
location payload is modelled by the shape the records actually carry. -/

/-- The `location` dictionary carried by attendance records. -/
structure Location where
  latitude : ℚ
  longitude : ℚ
  address : String
deriving DecidableEq, Repr

structure District where
  id : String
  name : String
  code : String
  description : String
  createdAt : String
deriving DecidableEq, Repr

structure Department where
  id : String
  name : String
  departmentNumber : String
  districtId : String
  districtName : String
  manager : String
  employeeCount : Int
  description : String
  createdAt : String
deriving DecidableEq, Repr

structure Employee where
  id : String
  name : String
  phone : String
  photo : String
  position : String
  departmentId : String
  departmentName : String
  departmentNumber : String
  districtName : String
  email : String
  status : String
  createdAt : String
deriving DecidableEq, Repr

structure AttendanceRecord where
  id : String
  employeeName : String
  employeeId : String
  department : String
  date : String
  checkIn : Option String
  checkOut : Option String
  status : String
  workHours : String
  location : Option Location
deriving DecidableEq, Repr

/-- `POST /attendance` request body (`AttendanceCreate`, main.py 106-112). -/
structure AttendanceCreate where
  employeeId : String
  date : String
  checkIn : Option String
  checkOut : Option String
  status : String
  location : Option Location
deriving DecidableEq, Repr

/-- `POST /districts` body after pydantic validation: the fields the handler
reads (`id`/`createdAt` are overwritten unconditionally). -/
structure DistrictIn where
  name : String
  code : String
  description : String
deriving DecidableEq, Repr

/-- `POST /departments` body after pydantic validation. `districtName` is
overwritten by the handler but `employeeCount` is stored as supplied
(pydantic defaults it to 0 only when the caller omits it). -/
structure DepartmentIn where
  name : String
  departmentNumber : String
  districtId : String
  districtName : String
  manager : String
  employeeCount : Int
  description : String
deriving DecidableEq, Repr

/-- `POST /employees` body after pydantic validation; the three denormalized
fields are overwritten by the handler. -/
structure EmployeeIn where
  name : String
  phone : String
  photo : String
  position : String
  departmentId : String
  departmentName : String
  departmentNumber : String
  districtName : String
  email : String
  status : String
deriving DecidableEq, Repr

/-- A `PUT /districts/{id}` body: an arbitrary JSON object merged key by key
into the stored record, modelled over the schema keys (a key is present in
the dict exactly when the `Option` is `some`). -/
structure DistrictPatch where
  id : Option String := none
  name : Option String := none
  code : Option String := none
  description : Option String := none
  createdAt : Option String := none
deriving DecidableEq, Repr

structure DepartmentPatch where
  id : Option String := none
  name : Option String := none
  departmentNumber : Option String := none
  districtId : Option String := none
  districtName : Option String := none
  manager : Option String := none
  employeeCount : Option Int := none
  description : Option String := none
  createdAt : Option String := none
deriving DecidableEq, Repr

structure EmployeePatch where
  id : Option String := none
  name : Option String := none
  phone : Option String := none
  photo : Option String := none
  position : Option String := none
  departmentId : Option String := none
  departmentName : Option String := none
  departmentNumber : Option String := none
  districtName : Option String := none
  email : Option String := none
  status : Option String := none
  createdAt : Option String := none
deriving DecidableEq, Repr

/-- Python `dict.update(patch)`: every key present in the patch replaces the
stored value, keys absent from the patch are left untouched. -/
def applyDistrictPatch (p : DistrictPatch) (d : District) : District :=
  { id := p.id.getD d.id
    name := p.name.getD d.name
    code := p.code.getD d.code
    description := p.description.getD d.description
    createdAt := p.createdAt.getD d.createdAt }

def applyDepartmentPatch (p : DepartmentPatch) (d : Department) : Department :=
  { id := p.id.getD d.id
    name := p.name.getD d.name
    departmentNumber := p.departmentNumber.getD d.departmentNumber
    districtId := p.districtId.getD d.districtId
    districtName := p.districtName.getD d.districtName
    manager := p.manager.getD d.manager
    employeeCount := p.employeeCount.getD d.employeeCount
    description := p.description.getD d.description
    createdAt := p.createdAt.getD d.createdAt }

def applyEmployeePatch (p : EmployeePatch) (e : Employee) : Employee :=
  { id := p.id.getD e.id
    name := p.name.getD e.name
    phone := p.phone.getD e.phone
    photo := p.photo.getD e.photo
    position := p.position.getD e.position
    departmentId := p.departmentId.getD e.departmentId
    departmentName := p.departmentName.getD e.departmentName
    departmentNumber := p.departmentNumber.getD e.departmentNumber
    districtName := p.districtName.getD e.districtName
    email := p.email.getD e.email
    status := p.status.getD e.status
    createdAt := p.createdAt.getD e.createdAt }

/-- The persisted state: the four collection files. -/
structure State where
  districts : List District
  departments : List Department
  employees : List Employee
  attendance : List AttendanceRecord
deriving DecidableEq, Repr

/-- `raise HTTPException(status_code=..., detail=...)`. -/
structure HTTPError where
  status : Nat
  detail : String
deriving DecidableEq, Repr

/-- Outcome of a handler call: either success with the response data, or an
HTTP error; both carry the on-disk state after the call (a handler that
raises before its first `save_json_data` leaves the state as it was). -/
inductive ApiResult (α : Type) where
  | ok (data : α) (state : State)
  | err (e : HTTPError) (state : State)
deriving DecidableEq, Repr

/-- The on-disk state after the call, whatever the outcome. -/
def ApiResult.stateOf : ApiResult α → State
  | .ok _ s => s
  | .err _ s => s

/-- `for i, x in enumerate(l): if p(x): l[i] = f(x); break` together with the
`return l[i]` the update handlers perform: the updated record and the new
list, or `none` when no element matches (the 404 path). -/
def updateFirst (p : α → Bool) (f : α → α) : List α → Option (α × List α)
  | [] => none
  | x :: xs =>
    if p x then some (f x, f x :: xs)
    else (updateFirst p f xs).map (fun r => (r.1, x :: r.2))

/-- The same loop when the handler ignores the updated record and falls
through silently on no match (employee-count bump, attendance update). -/
def bumpFirst (p : α → Bool) (f : α → α) : List α → List α
  | [] => []
  | x :: xs => if p x then f x :: xs else x :: bumpFirst p f xs

/-! ## Handlers (main.py lines 399-575)

Each handler takes the current state plus the strings produced by
`generate_id()` / `get_current_datetime()` where the source calls them. -/

/-- `POST /districts` (main.py 404-414). -/
def create_district (s : State) (district : DistrictIn) (gid gtime : String) :
    ApiResult District :=
  if s.districts.any (fun d => d.code == district.code) then
    .err ⟨400, "Bu kod allaqachon mavjud"⟩ s
  else
    let new_district : District :=
      { id := gid, name := district.name, code := district.code,
        description := district.description, createdAt := gtime }
    .ok new_district { s with districts := s.districts ++ [new_district] }

/-- `PUT /districts/{district_id}` (main.py 416-424). -/
def update_district (s : State) (district_id : String) (district_data : DistrictPatch) :
    ApiResult District :=
  match updateFirst (fun d => d.id == district_id) (applyDistrictPatch district_data)
      s.districts with
  | some (d, ds) => .ok d { s with districts := ds }
  | none => .err ⟨404, "Tuman topilmadi"⟩ s

/-- `DELETE /districts/{district_id}` (main.py 426-434). -/
def delete_district (s : State) (district_id : String) : ApiResult Unit :=
  if s.departments.any (fun dept => dept.districtId == district_id) then
    .err ⟨400, "Bu tumanda bo'limlar mavjud"⟩ s
  else
    .ok () { s with districts := s.districts.filter (fun d => d.id != district_id) }

/-- `POST /departments` (main.py 441-456): the duplicate
(departmentNumber, districtId) check runs before the district lookup, the
stored record takes `districtName` from the resolved district, and
`employeeCount` is whatever the validated body carried. -/
def create_department (s : State) (department : DepartmentIn) (gid gtime : String) :
    ApiResult Department :=
  if s.departments.any (fun d =>
      d.departmentNumber == department.departmentNumber
        && d.districtId == department.districtId) then
    .err ⟨400, "Bu bo'lim raqami allaqachon mavjud"⟩ s
  else
    match s.districts.find? (fun d => d.id == department.districtId) with
    | none => .err ⟨404, "Tuman topilmadi"⟩ s
    | some district =>
      let new_department : Department :=
        { id := gid, name := department.name,
          departmentNumber := department.departmentNumber,
          districtId := department.districtId, districtName := district.name,
          manager := department.manager, employeeCount := department.employeeCount,
          description := department.description, createdAt := gtime }
      .ok new_department { s with departments := s.departments ++ [new_department] }

/-- `PUT /departments/{department_id}` (main.py 458-466). -/
def update_department (s : State) (department_id : String)
    (department_data : DepartmentPatch) : ApiResult Department :=
  match updateFirst (fun d => d.id == department_id)
      (applyDepartmentPatch department_data) s.departments with
  | some (d, ds) => .ok d { s with departments := ds }
  | none => .err ⟨404, "Bo'lim topilmadi"⟩ s

/-- `DELETE /departments/{department_id}` (main.py 468-476). -/
def delete_department (s : State) (department_id : String) : ApiResult Unit :=
  if s.employees.any (fun emp => emp.departmentId == department_id) then
    .err ⟨400, "Bu bo'limda ishchilar mavjud"⟩ s
  else
    .ok () { s with departments := s.departments.filter (fun d => d.id != department_id) }

/-- `POST /employees` (main.py 483-506): phone uniqueness, department lookup,
denormalization, save of the employees file, then a reload of the
departments file and the employee-count bump saved as a second write. -/
def create_employee (s : State) (employee : EmployeeIn) (gid gtime : String) :
    ApiResult Employee :=
  if s.employees.any (fun emp => emp.phone == employee.phone) then
    .err ⟨400, "Bu telefon raqami allaqachon mavjud"⟩ s
  else
    match s.departments.find? (fun d => d.id == employee.departmentId) with
    | none => .err ⟨404, "Bo'lim topilmadi"⟩ s
    | some department =>
      let new_employee : Employee :=
        { id := gid, name := employee.name, phone := employee.phone,
          photo := employee.photo, position := employee.position,
          departmentId := employee.departmentId,
          departmentName := department.name,
          departmentNumber := department.departmentNumber,
          districtName := department.districtName,
          email := employee.email, status := employee.status, createdAt := gtime }
      let s1 := { s with employees := s.employees ++ [new_employee] }
      let departments2 :=
        bumpFirst (fun d => d.id == employee.departmentId)
          (fun d => { d with employeeCount := d.employeeCount + 1 }) s1.departments
      let s2 := { s1 with departments := departments2 }
      .ok new_employee s2

/-- `PUT /employees/{employee_id}` (main.py 508-516). -/
def update_employee (s : State) (employee_id : String) (employee_data : EmployeePatch) :
    ApiResult Employee :=
  match updateFirst (fun emp => emp.id == employee_id)
      (applyEmployeePatch employee_data) s.employees with
  | some (e, es) => .ok e { s with employees := es }
  | none => .err ⟨404, "Ishchi topilmadi"⟩ s

/-- `DELETE /employees/{employee_id}` (main.py 518-532): 404 when absent,
otherwise removal, save, and a floored decrement of the owning department's
`employeeCount` saved as a second write. -/
def delete_employee (s : State) (employee_id : String) : ApiResult Unit :=
  match s.employees.find? (fun emp => emp.id == employee_id) with
  | none => .err ⟨404, "Ishchi topilmadi"⟩ s
  | some employee =>
    let s1 := { s with employees := s.employees.filter (fun emp => emp.id != employee_id) }
    let departments2 :=
      bumpFirst (fun d => d.id == employee.departmentId)
        (fun d => { d with employeeCount := max 0 (d.employeeCount - 1) }) s1.departments
    let s2 := { s1 with departments := departments2 }
    .ok () s2

/-- `GET /attendance?date=...` (main.py 534-538): exact string filter. -/
def get_attendance (attendance_records : List AttendanceRecord) (date : String) :
    List AttendanceRecord :=
  attendance_records.filter (fun record => record.date == date)

/-- The in-place merge `POST /attendance` performs on an existing record
(main.py 552-558): checkIn, checkOut, status, location and the recomputed
workHours; `employeeId`, `date`, `id`, `employeeName`, `department` keep
their stored values. -/
def applyAttendanceUpdate (a : AttendanceCreate) (r : AttendanceRecord) :
    AttendanceRecord :=
  { r with
    checkIn := a.checkIn
    checkOut := a.checkOut
    status := a.status
    location := a.location
    workHours := calculate_work_hours a.checkIn a.checkOut }

/-- `POST /attendance` (main.py 540-575): 404 when the employee id does not
resolve; otherwise find-or-create on (employeeId, date), the update branch
locating the record again by its id. -/
def mark_attendance (s : State) (attendance : AttendanceCreate) (gid : String) :
    ApiResult Unit :=
  match s.employees.find? (fun emp => emp.id == attendance.employeeId) with
  | none => .err ⟨404, "Ishchi topilmadi"⟩ s
  | some employee =>
    match s.attendance.find? (fun record =>
        record.employeeId == attendance.employeeId
          && record.date == attendance.date) with
    | some existing_record =>
      let records2 :=
        bumpFirst (fun record => record.id == existing_record.id)
          (applyAttendanceUpdate attendance) s.attendance
      .ok () { s with attendance := records2 }
    | none =>
      let new_record : AttendanceRecord :=
        { id := gid, employeeName := employee.name,
          employeeId := attendance.employeeId,
          department := employee.departmentName, date := attendance.date,
          checkIn := attendance.checkIn, checkOut := attendance.checkOut,
          status := attendance.status,
          workHours := calculate_work_hours attendance.checkIn attendance.checkOut,
          location := attendance.location }
      .ok () { s with attendance := s.attendance ++ [new_record] }

/-! ## Statistics (main.py 594-676)

Python `round(x, 1)` is modelled exactly on rationals: round half to even at
one decimal. The static chart arrays and insight texts in the response are
constant literals independent of the state and are not modelled; the
computed overview, attendance and trend numbers are. -/

/-- Python `round` to an integer: nearest, ties to even. -/
def pyRound (q : ℚ) : ℤ :=
  if q - (⌊q⌋ : ℚ) < 1 / 2 then ⌊q⌋
  else if 1 / 2 < q - (⌊q⌋ : ℚ) then ⌊q⌋ + 1
  else if ⌊q⌋ % 2 = 0 then ⌊q⌋ else ⌊q⌋ + 1

/-- Python `round(x, 1)`. -/
def round1 (q : ℚ) : ℚ :=
  (pyRound (q * 10) : ℚ) / 10

structure StatsOverview where
  totalEmployees : Nat
  activeEmployees : Nat
  totalDepartments : Nat
  totalDistricts : Nat
deriving DecidableEq, Repr

structure StatsAttendance where
  total : Nat
  present : Nat
  absent : Nat
  late : Nat
  percentage : ℚ
deriving DecidableEq, Repr

structure Statistics where
  overview : StatsOverview
  attendance : StatsAttendance
  trendsAttendanceCurrent : ℚ
  trendsLateCurrent : ℚ
deriving DecidableEq, Repr

/-- `GET /statistics` (main.py 594-676), the computed fields: counts over the
collections, today's attendance filtered by exact date match, and the two
percentages `(present+late)/max(total_employees,1)*100` and
`late/max(total_employees,1)*100`, each guarded by `if total_employees > 0
else 0` and rounded to one decimal. -/
def get_statistics (s : State) (today : String) : Statistics :=
  let total_employees := s.employees.length
  let active_employees := (s.employees.filter (fun emp => emp.status == "active")).length
  let total_departments := s.departments.length
  let total_districts := s.districts.length
  let today_attendance := s.attendance.filter (fun record => record.date == today)
  let present_today := (today_attendance.filter (fun record => record.status == "present")).length
  let late_today := (today_attendance.filter (fun record => record.status == "late")).length
  let absent_today := (today_attendance.filter (fun record => record.status == "absent")).length
  let attendance_percentage : ℚ :=
    if total_employees > 0 then
      ((present_today + late_today : Nat) : ℚ) / ((max total_employees 1 : Nat) : ℚ) * 100
    else 0
  let late_percentage : ℚ :=
    if total_employees > 0 then
      ((late_today : Nat) : ℚ) / ((max total_employees 1 : Nat) : ℚ) * 100
    else 0
  { overview :=
      { totalEmployees := total_employees
        activeEmployees := active_employees
        totalDepartments := total_departments
        totalDistricts := total_districts }
    attendance :=
      { total := total_employees
        present := present_today
        absent := absent_today
        late := late_today
        percentage := round1 attendance_percentage }
    trendsAttendanceCurrent := round1 attendance_percentage
    trendsLateCurrent := round1 late_percentage }

/-! ## Seed data and reachability (main.py 139-392)

`initialize_sample_data` writes fixed records when the files are absent; the
attendance dates are the startup day and the day before, kept as parameters. -/

def seedDistricts : List District :=
  [ { id := "1", name := "Toshkent tumani", code := "TSH001",
      description := "Markaziy ofis joylashgan tuman", createdAt := "2024-01-15T10:00:00" },
    { id := "2", name := "Samarqand tumani", code := "SMQ001",
      description := "Ikkinchi filial joylashgan tuman", createdAt := "2024-01-20T10:00:00" } ]

def seedDepartments : List Department :=
  [ { id := "1", name := "IT bo'limi", departmentNumber := "IT-001", districtId := "1",
      districtName := "Toshkent tumani", manager := "Karimov Sardor", employeeCount := 3,
      description := "Dasturlash va texnik yordam", createdAt := "2024-02-01T10:00:00" },
    { id := "2", name := "Moliya bo'limi", departmentNumber := "FIN-001", districtId := "1",
      districtName := "Toshkent tumani", manager := "Abdullayeva Nilufar", employeeCount := 2,
      description := "Moliyaviy operatsiyalar", createdAt := "2024-02-05T10:00:00" },
    { id := "3", name := "Marketing bo'limi", departmentNumber := "MKT-001", districtId := "2",
      districtName := "Samarqand tumani", manager := "Nazarova Dilshoda", employeeCount := 2,
      description := "Reklama va savdo", createdAt := "2024-02-10T10:00:00" } ]

def seedEmployees : List Employee :=
  [ { id := "1", name := "Karimov Sardor", phone := "+998901234567", photo := "",
      position := "IT menejer", departmentId := "1", departmentName := "IT bo'limi",
      departmentNumber := "IT-001", districtName := "Toshkent tumani",
      email := "sardor@company.uz", status := "active", createdAt := "2024-02-15T10:00:00" },
    { id := "2", name := "Abdullayeva Nilufar", phone := "+998901234568", photo := "",
      position := "Moliya menejer", departmentId := "2", departmentName := "Moliya bo'limi",
      departmentNumber := "FIN-001", districtName := "Toshkent tumani",
      email := "nilufar@company.uz", status := "active", createdAt := "2024-02-16T10:00:00" },
    { id := "3", name := "Nazarova Dilshoda", phone := "+998901234570", photo := "",
      position := "Marketing mutaxassis", departmentId := "3", departmentName := "Marketing bo'limi",
      departmentNumber := "MKT-001", districtName := "Samarqand tumani",
      email := "dilshoda@company.uz", status := "active", createdAt := "2024-02-17T10:00:00" },
    { id := "4", name := "Toshmatov Oybek", phone := "+998901234569", photo := "",
      position := "IT dasturchi", departmentId := "1", departmentName := "IT bo'limi",
      departmentNumber := "IT-001", districtName := "Toshkent tumani",
      email := "oybek@company.uz", status := "active", createdAt := "2024-02-18T10:00:00" },
    { id := "5", name := "Aliyev Vali", phone := "+998901234571", photo := "",
      position := "Moliya hisobchisi", departmentId := "2", departmentName := "Moliya bo'limi",
      departmentNumber := "FIN-001", districtName := "Toshkent tumani",
      email := "vali@company.uz", status := "active", createdAt := "2024-02-19T10:00:00" },
    { id := "6", name := "Rahimova Madina", phone := "+998901234572", photo := "",
      position := "Marketing dizayner", departmentId := "3", departmentName := "Marketing bo'limi",
      departmentNumber := "MKT-001", districtName := "Samarqand tumani",
      email := "madina@company.uz", status := "active", createdAt := "2024-02-20T10:00:00" },
    { id := "7", name := "Ergashev Jasur", phone := "+998901234573", photo := "",
      position := "IT tizim administratori", departmentId := "1", departmentName := "IT bo'limi",
      departmentNumber := "IT-001", districtName := "Toshkent tumani",
      email := "jasur@company.uz", status := "active", createdAt := "2024-02-21T10:00:00" } ]

def toshkentLoc : Location :=
  { latitude := (412995 : ℚ) / 10000, longitude := (692401 : ℚ) / 10000, address := "Toshkent" }

def samarqandLoc : Location :=
  { latitude := (396270 : ℚ) / 10000, longitude := (669750 : ℚ) / 10000, address := "Samarqand" }

def seedAttendance (today yesterday : String) : List AttendanceRecord :=
  [ { id := "1", employeeName := "Karimov Sardor", employeeId := "1",
      department := "IT bo'limi", date := today, checkIn := some "09:00",
      checkOut := some "18:00", status := "present", workHours := "8:00",
      location := some toshkentLoc },
    { id := "2", employeeName := "Abdullayeva Nilufar", employeeId := "2",
      department := "Moliya bo'limi", date := today, checkIn := some "09:15",
      checkOut := some "18:00", status := "late", workHours := "7:45",
      location := some toshkentLoc },
    { id := "3", employeeName := "Nazarova Dilshoda", employeeId := "3",
      department := "Marketing bo'limi", date := today, checkIn := some "08:55",
      checkOut := some "17:30", status := "early-leave", workHours := "7:35",
      location := some samarqandLoc },
    { id := "4", employeeName := "Toshmatov Oybek", employeeId := "4",
      department := "IT bo'limi", date := today, checkIn := none,
      checkOut := none, status := "absent", workHours := "0:00", location := none },
    { id := "5", employeeName := "Aliyev Vali", employeeId := "5",
      department := "Moliya bo'limi", date := today, checkIn := some "09:00",
      checkOut := some "18:00", status := "present", workHours := "8:00",
      location := some toshkentLoc },
    { id := "6", employeeName := "Karimov Sardor", employeeId := "1",
      department := "IT bo'limi", date := yesterday, checkIn := some "08:55",
      checkOut := some "18:10", status := "present", workHours := "8:15",
      location := some toshkentLoc },
    { id := "7", employeeName := "Abdullayeva Nilufar", employeeId := "2",
      department := "Moliya bo'limi", date := yesterday, checkIn := some "09:00",
      checkOut := some "18:00", status := "present", workHours := "8:00",
      location := some toshkentLoc } ]

/-- The state written by `initialize_sample_data` on first startup, with the
startup day and the day before as parameters. -/
def seedState (today yesterday : String) : State :=
  { districts := seedDistricts
    departments := seedDepartments
    employees := seedEmployees
    attendance := seedAttendance today yesterday }

/-- One HTTP call to any mutating handler, with arbitrary request data and
arbitrary generated id / timestamp strings; the resulting on-disk state is
the call's post state whatever the outcome. -/
inductive Step : State → State → Prop
  | createDistrict (s : State) (i : DistrictIn) (gid gtime : String) :
      Step s (create_district s i gid gtime).stateOf
  | updateDistrict (s : State) (id : String) (p : DistrictPatch) :
      Step s (update_district s id p).stateOf
  | deleteDistrict (s : State) (id : String) :
      Step s (delete_district s id).stateOf
  | createDepartment (s : State) (i : DepartmentIn) (gid gtime : String) :
      Step s (create_department s i gid gtime).stateOf
  | updateDepartment (s : State) (id : String) (p : DepartmentPatch) :
      Step s (update_department s id p).stateOf
  | deleteDepartment (s : State) (id : String) :
      Step s (delete_department s id).stateOf
  | createEmployee (s : State) (i : EmployeeIn) (gid gtime : String) :
      Step s (create_employee s i gid gtime).stateOf
  | updateEmployee (s : State) (id : String) (p : EmployeePatch) :
      Step s (update_employee s id p).stateOf
  | deleteEmployee (s : State) (id : String) :
      Step s (delete_employee s id).stateOf
  | markAttendance (s : State) (a : AttendanceCreate) (gid : String) :
      Step s (mark_attendance s a gid).stateOf

/-- States of the running service: the seed state (for whatever startup day)
followed by any sequence of mutating calls. -/
inductive Reachable : State → Prop
  | seed (today yesterday : String) : Reachable (seedState today yesterday)
  | step {s t : State} : Reachable s → Step s t → Reachable t

/-! ## List helper lemmas for the update loops -/

theorem updateFirst_eq_none {α} (p : α → Bool) (f : α → α) (l : List α)
    (h : ∀ x ∈ l, p x = false) : updateFirst p f l = none := by
  induction l with
  | nil => rfl
  | cons x xs ih =>
    rw [updateFirst, if_neg (by simp [h x (List.mem_cons_self x xs)]),
      ih (fun y hy => h y (List.mem_cons_of_mem x hy))]
    rfl

theorem updateFirst_unique {α} (p : α → Bool) (f : α → α) (l₁ l₂ : List α) (d : α)
    (hp : p d = true) (h₁ : ∀ x ∈ l₁, p x = false) :
    updateFirst p f (l₁ ++ d :: l₂) = some (f d, l₁ ++ f d :: l₂) := by
  induction l₁ with
  | nil => simp [updateFirst, hp]
  | cons x xs ih =>
    rw [List.cons_append, updateFirst,
      if_neg (by simp [h₁ x (List.mem_cons_self x xs)]),
      ih (fun y hy => h₁ y (List.mem_cons_of_mem x hy))]
    rfl

theorem bumpFirst_unique {α} (p : α → Bool) (f : α → α) (l₁ l₂ : List α) (d : α)
    (hp : p d = true) (h₁ : ∀ x ∈ l₁, p x = false) :
    bumpFirst p f (l₁ ++ d :: l₂) = l₁ ++ f d :: l₂ := by
  induction l₁ with
  | nil => simp [bumpFirst, hp]
  | cons x xs ih =>
    rw [List.cons_append, bumpFirst,
      if_neg (by simp [h₁ x (List.mem_cons_self x xs)]), ih
        (fun y hy => h₁ y (List.mem_cons_of_mem x hy))]
    rfl

theorem bumpFirst_map {α β} (p : α → Bool) (f : α → α) (g : α → β)
    (hg : ∀ x, g (f x) = g x) (l : List α) :
    (bumpFirst p f l).map g = l.map g := by
  induction l with
  | nil => rfl
  | cons x xs ih =>
    rw [bumpFirst]
    by_cases hx : p x
    · rw [if_pos hx, List.map_cons, List.map_cons, hg]
    · rw [if_neg hx, List.map_cons, List.map_cons, ih]

theorem find_bumpFirst {α} (p : α → Bool) (f : α → α)
    (hpf : ∀ x, p (f x) = p x) (l : List α) (d : α)
    (h : l.find? p = some d) : (bumpFirst p f l).find? p = some (f d) := by
  induction l with
  | nil => simp at h
  | cons x xs ih =>
    by_cases hx : p x
    · rw [List.find?_cons_of_pos _ hx] at h
      injection h with h
      subst h
      rw [bumpFirst, if_pos hx, List.find?_cons_of_pos _ (by rw [hpf]; exact hx)]
    · rw [List.find?_cons_of_neg _ hx] at h
      rw [bumpFirst, if_neg hx, List.find?_cons_of_neg _ hx, ih h]

theorem mem_nodup_split {α β} (key : α → β) (l : List α) (d : α)
    (hmem : d ∈ l) (hnd : (l.map key).Nodup) :
    ∃ l₁ l₂, l = l₁ ++ d :: l₂
      ∧ (∀ x ∈ l₁, key x ≠ key d) ∧ (∀ x ∈ l₂, key x ≠ key d) := by
  obtain ⟨l₁, l₂, rfl⟩ := List.append_of_mem hmem
  refine ⟨l₁, l₂, rfl, ?_, ?_⟩
  · intro x hx heq
    rw [List.map_append, List.map_cons, List.nodup_middle, List.nodup_cons] at hnd
    exact hnd.1 (by rw [← heq]; exact List.mem_append_left _ (List.mem_map_of_mem key hx))
  · intro x hx heq
    rw [List.map_append, List.map_cons, List.nodup_middle, List.nodup_cons] at hnd
    exact hnd.1 (by rw [← heq]; exact List.mem_append_right _ (List.mem_map_of_mem key hx))

/-! ## C8: `load_json_data` (main.py 115-123)

The outcome of `os.path.exists` plus `open`/`json.load` on one collection
file: the file is absent, or opening/parsing raises (caught by the handler's
`except`), or it parses to a record list in file order. -/

inductive FileContent (α : Type) where
  | absent
  | unreadable
  | stored (records : List α)

/-- `load_json_data`: missing file gives `[]`, a caught read/parse failure
gives `[]`, a parsed file gives its records in file order; no case raises. -/
def load_json_data {α} : FileContent α → List α
  | .absent => []
  | .unreadable => []
  | .stored records => records

/-- C8: loading never surfaces a failure: an absent file and an unreadable or
corrupt file both load as the empty collection, and a readable file loads as
exactly its stored records in file (insertion) order. -/
theorem load_json_data_total :
    ∀ (α : Type),
      load_json_data (α := α) .absent = []
      ∧ load_json_data (α := α) .unreadable = []
      ∧ ∀ records : List α, load_json_data (.stored records) = records := by
  intro α
  exact ⟨rfl, rfl, fun _ => rfl⟩

/-! ## C7: `GET /attendance` date filter -/

/-- C7: the returned list is a subsequence of the stored collection (hence in
storage order), a record is returned exactly when its stored `date` string
equals the query string, and the count of returned records is the count of
exact matches — exact string equality, no partial or normalized matching. -/
theorem get_attendance_exact_filter :
    ∀ (attendance_records : List AttendanceRecord) (date : String),
      List.Sublist (get_attendance attendance_records date) attendance_records
      ∧ (∀ r, r ∈ get_attendance attendance_records date
          ↔ r ∈ attendance_records ∧ r.date = date)
      ∧ (get_attendance attendance_records date).length
          = attendance_records.countP (fun r => r.date == date) := by
  intro recs date
  refine ⟨List.filter_sublist recs, ?_, (List.countP_eq_length_filter _ _).symm⟩
  intro r
  simp [get_attendance, List.mem_filter]

/-! ## C6: `DELETE /districts/{id}` -/

/-- C6: deleting a district fails with 400 whenever some department
references it; with no referencing department it succeeds and removes every
district with that id, and when additionally no district carries the id the
collection is left exactly as it was (idempotent delete, no 404 path). -/
theorem delete_district_conflict_or_idempotent :
    ∀ (s : State) (district_id : String),
      ((∃ dept ∈ s.departments, dept.districtId = district_id) →
        delete_district s district_id = .err ⟨400, "Bu tumanda bo'limlar mavjud"⟩ s)
      ∧ ((∀ dept ∈ s.departments, dept.districtId ≠ district_id) →
        delete_district s district_id =
          .ok () { s with districts := s.districts.filter (fun d => d.id != district_id) })
      ∧ ((∀ dept ∈ s.departments, dept.districtId ≠ district_id) →
         (∀ d ∈ s.districts, d.id ≠ district_id) →
        delete_district s district_id = .ok () s) := by
  intro s district_id
  refine ⟨?_, ?_, ?_⟩
  · intro ⟨dept, hmem, heq⟩
    rw [delete_district, if_pos]
    rw [List.any_eq_true]
    exact ⟨dept, hmem, by simp [heq]⟩
  · intro h
    rw [delete_district, if_neg]
    rw [List.any_eq_true]
    rintro ⟨dept, hmem, heq⟩
    exact h dept hmem (by simpa using heq)
  · intro h hd
    rw [delete_district, if_neg]
    · have : s.districts.filter (fun d => d.id != district_id) = s.districts := by
        rw [List.filter_eq_self]
        intro d hdm
        simpa using hd d hdm
      rw [this]
    · rw [List.any_eq_true]
      rintro ⟨dept, hmem, heq⟩
      exact h dept hmem (by simpa using heq)

/-! ## C9: mutating handlers are atomic on error -/

/-- C9: whenever any of the ten mutating handlers fails with an HTTP error
(400 or 404), the error is raised before any `save_json_data` call, so the
post state equals the pre state — no collection file has been written. -/
theorem mutating_endpoints_atomic_on_error :
    (∀ s i gid gtime e t, create_district s i gid gtime = .err e t → t = s)
    ∧ (∀ s id p e t, update_district s id p = .err e t → t = s)
    ∧ (∀ s id e t, delete_district s id = .err e t → t = s)
    ∧ (∀ s i gid gtime e t, create_department s i gid gtime = .err e t → t = s)
    ∧ (∀ s id p e t, update_department s id p = .err e t → t = s)
    ∧ (∀ s id e t, delete_department s id = .err e t → t = s)
    ∧ (∀ s i gid gtime e t, create_employee s i gid gtime = .err e t → t = s)
    ∧ (∀ s id p e t, update_employee s id p = .err e t → t = s)
    ∧ (∀ s id e t, delete_employee s id = .err e t → t = s)
    ∧ (∀ s a gid e t, mark_attendance s a gid = .err e t → t = s) := by
  refine ⟨?_, ?_, ?_, ?_, ?_, ?_, ?_, ?_, ?_, ?_⟩
  · intro s i gid gtime e t h
    rw [create_district] at h
    split at h
    · cases h; rfl
    · cases h
  · intro s id p e t h
    rw [update_district] at h
    split at h
    · cases h
    · cases h; rfl
  · intro s id e t h
    rw [delete_district] at h
    split at h
    · cases h; rfl
    · cases h
  · intro s i gid gtime e t h
    rw [create_department] at h
    split at h
    · cases h; rfl
    · split at h
      · cases h; rfl
      · cases h
  · intro s id p e t h
    rw [update_department] at h
    split at h
    · cases h
    · cases h; rfl
  · intro s id e t h
    rw [delete_department] at h
    split at h
    · cases h; rfl
    · cases h
  · intro s i gid gtime e t h
    rw [create_employee] at h
    split at h
    · cases h; rfl
    · split at h
      · cases h; rfl
      · cases h
  · intro s id p e t h
    rw [update_employee] at h
    split at h
    · cases h
    · cases h; rfl
  · intro s id e t h
    rw [delete_employee] at h
    split at h
    · cases h; rfl
    · cases h
  · intro s a gid e t h
    rw [mark_attendance] at h
    split at h
    · cases h; rfl
    · split at h
      · cases h
      · cases h

/-! ## C3: `POST /departments` -/

/-- C3 (amended): the duplicate (departmentNumber, districtId) check runs
first and yields 400 even when the district id does not resolve; 404 is
raised only when there is no duplicate pair and the district is missing; on
success `districtName` is copied from the resolved district and
`employeeCount` is stored exactly as the validated body carried it
(pydantic defaults it to 0 only when the caller omits the field). -/
theorem create_department_checks :
    ∀ (s : State) (i : DepartmentIn) (gid gtime : String),
      ((∃ d ∈ s.departments,
          d.departmentNumber = i.departmentNumber ∧ d.districtId = i.districtId) →
        create_department s i gid gtime
          = .err ⟨400, "Bu bo'lim raqami allaqachon mavjud"⟩ s)
      ∧ ((∀ d ∈ s.departments,
            ¬(d.departmentNumber = i.departmentNumber ∧ d.districtId = i.districtId)) →
          s.districts.find? (fun d => d.id == i.districtId) = none →
          create_department s i gid gtime = .err ⟨404, "Tuman topilmadi"⟩ s)
      ∧ (∀ district,
          (∀ d ∈ s.departments,
            ¬(d.departmentNumber = i.departmentNumber ∧ d.districtId = i.districtId)) →
          s.districts.find? (fun d => d.id == i.districtId) = some district →
          ∃ nd, create_department s i gid gtime
              = .ok nd { s with departments := s.departments ++ [nd] }
            ∧ nd.districtName = district.name
            ∧ nd.employeeCount = i.employeeCount
            ∧ nd.departmentNumber = i.departmentNumber
            ∧ nd.districtId = i.districtId
            ∧ nd.id = gid ∧ nd.createdAt = gtime) := by
  intro s i gid gtime
  refine ⟨?_, ?_, ?_⟩
  · intro ⟨d, hmem, h1, h2⟩
    rw [create_department, if_pos]
    rw [List.any_eq_true]
    exact ⟨d, hmem, by simp [h1, h2]⟩
  · intro hnodup hfind
    rw [create_department,
      if_neg (fun hc => by
        rw [List.any_eq_true] at hc
        obtain ⟨d, hmem, hd⟩ := hc
        simp only [Bool.and_eq_true, beq_iff_eq] at hd
        exact hnodup d hmem hd),
      hfind]
  · intro district hnodup hfind
    rw [create_department,
      if_neg (fun hc => by
        rw [List.any_eq_true] at hc
        obtain ⟨d, hmem, hd⟩ := hc
        simp only [Bool.and_eq_true, beq_iff_eq] at hd
        exact hnodup d hmem hd),
      hfind]
    exact ⟨_, rfl, rfl, rfl, rfl, rfl, rfl, rfl⟩

def cxDupDept : Department :=
  { id := "d1", name := "IT bo'limi", departmentNumber := "IT-001", districtId := "1",
    districtName := "Toshkent tumani", manager := "M", employeeCount := 3,
    description := "", createdAt := "2024-02-01T10:00:00" }

def cxDeptIn : DepartmentIn :=
  { name := "Yangi bo'lim", departmentNumber := "IT-001", districtId := "1",
    districtName := "", manager := "M2", employeeCount := 5, description := "" }

/-- A state in which the duplicate pair exists but no district resolves. -/
def cxStateDup : State :=
  { districts := [], departments := [cxDupDept], employees := [], attendance := [] }

def cxDistrict1 : District :=
  { id := "1", name := "Toshkent tumani", code := "TSH001", description := "",
    createdAt := "2024-01-15T10:00:00" }

/-- A state in which the district resolves and no duplicate exists. -/
def cxStateFresh : State :=
  { districts := [cxDistrict1], departments := [], employees := [], attendance := [] }

/-- C3 counterexample: with no district at all (so districtId `"1"` does not
resolve) but a department already carrying the pair (`"IT-001"`, `"1"`), the
handler answers 400 duplicate, not the claimed 404; and on a successful
create whose body carries `employeeCount = 5`, the stored record keeps 5
rather than the claimed 0. -/
theorem create_department_counterexample :
    create_department cxStateDup cxDeptIn "gid1" "2024-06-01T00:00:00"
        = .err ⟨400, "Bu bo'lim raqami allaqachon mavjud"⟩ cxStateDup
    ∧ cxStateDup.districts = []
    ∧ (create_department cxStateFresh cxDeptIn "gid1" "2024-06-01T00:00:00").stateOf.departments.map
        (fun d => d.employeeCount) = [5] := by
  refine ⟨by decide, rfl, by decide⟩

/-! ## C4: `POST /employees` -/

/-- C4: creating an employee with an unused phone and a resolving
departmentId succeeds, appends an employee whose denormalized
departmentName / departmentNumber / districtName equal the resolved
department's current values, and leaves that department with its
`employeeCount` increased by exactly 1. -/
theorem create_employee_increments_count :
    ∀ (s : State) (i : EmployeeIn) (gid gtime : String) (dept : Department),
      (∀ emp ∈ s.employees, emp.phone ≠ i.phone) →
      s.departments.find? (fun d => d.id == i.departmentId) = some dept →
      ∃ emp st,
        create_employee s i gid gtime = .ok emp st
        ∧ emp.departmentName = dept.name
        ∧ emp.departmentNumber = dept.departmentNumber
        ∧ emp.districtName = dept.districtName
        ∧ st.employees = s.employees ++ [emp]
        ∧ st.departments.find? (fun d => d.id == i.departmentId)
            = some { dept with employeeCount := dept.employeeCount + 1 } := by
  intro s i gid gtime dept hphone hfind
  rw [create_employee,
    if_neg (fun hc => by
      rw [List.any_eq_true] at hc
      obtain ⟨emp, hmem, he⟩ := hc
      rw [beq_iff_eq] at he
      exact hphone emp hmem he),
    hfind]
  refine ⟨_, _, rfl, rfl, rfl, rfl, rfl, ?_⟩
  exact find_bumpFirst (fun d => d.id == i.departmentId)
    (fun d => { d with employeeCount := d.employeeCount + 1 })
    (fun x => rfl) s.departments dept hfind

/-! ## C10: `PUT` updates apply every patch key, id and createdAt included -/

theorem updateFirst_patch_then_miss {α} (getId : α → String) (f : α → α)
    (l : List α) (d : α)
    (hmem : d ∈ l) (hnd : (l.map getId).Nodup) (hfd : getId (f d) ≠ getId d) :
    ∃ l2, updateFirst (fun x => getId x == getId d) f l = some (f d, l2)
      ∧ ∀ (g : α → α), updateFirst (fun x => getId x == getId d) g l2 = none := by
  obtain ⟨l₁, l₂, rfl, h1, h2⟩ := mem_nodup_split getId l d hmem hnd
  refine ⟨l₁ ++ f d :: l₂, ?_, ?_⟩
  · exact updateFirst_unique _ f l₁ l₂ d (by simp)
      (fun x hx => by simp [beq_eq_false_iff_ne, h1 x hx])
  · intro g
    apply updateFirst_eq_none
    intro x hx
    rcases List.mem_append.mp hx with hx1 | hx2
    · simp [beq_eq_false_iff_ne, h1 x hx1]
    · rcases List.mem_cons.mp hx2 with rfl | hx3
      · simp [beq_eq_false_iff_ne, hfd]
      · simp [beq_eq_false_iff_ne, h2 x hx3]

/-- C10: the PUT handlers merge every key of the caller-supplied dict into
the stored record with no field protection — for an existing district,
department or employee (ids unique, as generated), a patch carrying an `id`
key (different from the stored id) and a `createdAt` key replaces both, and
a subsequent update addressed by the original id fails with 404. -/
theorem update_patch_no_field_protection :
    (∀ (s : State) (d : District) (p p2 : DistrictPatch) (newId newCA : String),
      d ∈ s.districts → (s.districts.map (fun x => x.id)).Nodup →
      p.id = some newId → p.createdAt = some newCA → newId ≠ d.id →
      ∃ d2 s1, update_district s d.id p = .ok d2 s1
        ∧ d2.id = newId ∧ d2.createdAt = newCA
        ∧ ∃ e s2, update_district s1 d.id p2 = .err e s2 ∧ e.status = 404)
    ∧ (∀ (s : State) (d : Department) (p p2 : DepartmentPatch) (newId newCA : String),
      d ∈ s.departments → (s.departments.map (fun x => x.id)).Nodup →
      p.id = some newId → p.createdAt = some newCA → newId ≠ d.id →
      ∃ d2 s1, update_department s d.id p = .ok d2 s1
        ∧ d2.id = newId ∧ d2.createdAt = newCA
        ∧ ∃ e s2, update_department s1 d.id p2 = .err e s2 ∧ e.status = 404)
    ∧ (∀ (s : State) (d : Employee) (p p2 : EmployeePatch) (newId newCA : String),
      d ∈ s.employees → (s.employees.map (fun x => x.id)).Nodup →
      p.id = some newId → p.createdAt = some newCA → newId ≠ d.id →
      ∃ d2 s1, update_employee s d.id p = .ok d2 s1
        ∧ d2.id = newId ∧ d2.createdAt = newCA
        ∧ ∃ e s2, update_employee s1 d.id p2 = .err e s2 ∧ e.status = 404) := by
  refine ⟨?_, ?_, ?_⟩
  · intro s d p p2 newId newCA hmem hnd hpid hpca hne
    have hfd : (applyDistrictPatch p d).id ≠ d.id := by
      simp only [applyDistrictPatch, hpid, Option.getD_some]
      exact hne
    obtain ⟨l2, h1, h2⟩ := updateFirst_patch_then_miss (fun x => x.id)
      (applyDistrictPatch p) s.districts d hmem hnd hfd
    refine ⟨applyDistrictPatch p d, { s with districts := l2 }, ?_, ?_, ?_, ?_⟩
    · rw [update_district, h1]
    · simp only [applyDistrictPatch, hpid, Option.getD_some]
    · simp only [applyDistrictPatch, hpca, Option.getD_some]
    · refine ⟨⟨404, "Tuman topilmadi"⟩, { s with districts := l2 }, ?_, rfl⟩
      rw [update_district]
      rw [show ({ s with districts := l2 } : State).districts = l2 from rfl,
        h2 (applyDistrictPatch p2)]
  · intro s d p p2 newId newCA hmem hnd hpid hpca hne
    have hfd : (applyDepartmentPatch p d).id ≠ d.id := by
      simp only [applyDepartmentPatch, hpid, Option.getD_some]
      exact hne
    obtain ⟨l2, h1, h2⟩ := updateFirst_patch_then_miss (fun x => x.id)
      (applyDepartmentPatch p) s.departments d hmem hnd hfd
    refine ⟨applyDepartmentPatch p d, { s with departments := l2 }, ?_, ?_, ?_, ?_⟩
    · rw [update_department, h1]
    · simp only [applyDepartmentPatch, hpid, Option.getD_some]
    · simp only [applyDepartmentPatch, hpca, Option.getD_some]
    · refine ⟨⟨404, "Bo'lim topilmadi"⟩, { s with departments := l2 }, ?_, rfl⟩
      rw [update_department]
      rw [show ({ s with departments := l2 } : State).departments = l2 from rfl,
        h2 (applyDepartmentPatch p2)]
  · intro s d p p2 newId newCA hmem hnd hpid hpca hne
    have hfd : (applyEmployeePatch p d).id ≠ d.id := by
      simp only [applyEmployeePatch, hpid, Option.getD_some]
      exact hne
    obtain ⟨l2, h1, h2⟩ := updateFirst_patch_then_miss (fun x => x.id)
      (applyEmployeePatch p) s.employees d hmem hnd hfd
    refine ⟨applyEmployeePatch p d, { s with employees := l2 }, ?_, ?_, ?_, ?_⟩
    · rw [update_employee, h1]
    · simp only [applyEmployeePatch, hpid, Option.getD_some]
    · simp only [applyEmployeePatch, hpca, Option.getD_some]
    · refine ⟨⟨404, "Ishchi topilmadi"⟩, { s with employees := l2 }, ?_, rfl⟩
      rw [update_employee]
      rw [show ({ s with employees := l2 } : State).employees = l2 from rfl,
        h2 (applyEmployeePatch p2)]

/-! ## C5: attendance upsert keeps one record per (employeeId, date) -/

/-- The composite keys of an attendance collection. -/
def attendanceKeys (l : List AttendanceRecord) : List (String × String) :=
  l.map (fun r => (r.employeeId, r.date))

/-- The invariant: at most one record per (employeeId, date) pair. -/
def uniqueKeys (l : List AttendanceRecord) : Prop :=
  (attendanceKeys l).Nodup

/-- The record ids of an attendance collection. -/
def recordIds (l : List AttendanceRecord) : List String :=
  l.map (fun r => r.id)

theorem uniqueKeys_append_fresh (l : List AttendanceRecord) (nr : AttendanceRecord)
    (h : ∀ x ∈ l, ¬(x.employeeId = nr.employeeId ∧ x.date = nr.date))
    (hk : uniqueKeys l) : uniqueKeys (l ++ [nr]) := by
  unfold uniqueKeys attendanceKeys at *
  rw [List.map_append, List.map_cons, List.map_nil, List.nodup_append]
  refine ⟨hk, List.nodup_singleton _, ?_⟩
  intro p hp hp1
  rw [List.mem_singleton] at hp1
  obtain ⟨x, hx, hxe⟩ := List.mem_map.mp hp
  subst hp1
  rw [Prod.mk.injEq] at hxe
  exact h x hx hxe


/-- The record appended by the create branch of `POST /attendance`. -/
def newAttendanceRecord (emp : Employee) (a : AttendanceCreate) (g : String) :
    AttendanceRecord :=
  { id := g
    employeeName := emp.name
    employeeId := a.employeeId
    department := emp.departmentName
    date := a.date
    checkIn := a.checkIn
    checkOut := a.checkOut
    status := a.status
    workHours := calculate_work_hours a.checkIn a.checkOut
    location := a.location }

/-- The post state of one successful `POST /attendance` call: exactly one
record carries the request's (employeeId, date) pair, it carries the
request's values and recomputed workHours, the per-pair invariant and id
uniqueness are preserved, every id is an old id or the generated one, and
the employees file is untouched. -/
theorem mark_attendance_post (s : State) (a : AttendanceCreate) (g : String)
    (hemp : (s.employees.find? (fun emp => emp.id == a.employeeId)).isSome)
    (hkeys : uniqueKeys s.attendance)
    (hids : (recordIds s.attendance).Nodup)
    (hg : g ∉ recordIds s.attendance) :
    ∃ r,
      ((mark_attendance s a g).stateOf).attendance.filter
          (fun x => x.employeeId == a.employeeId && x.date == a.date) = [r]
      ∧ r.checkIn = a.checkIn ∧ r.checkOut = a.checkOut ∧ r.status = a.status
      ∧ r.location = a.location
      ∧ r.workHours = calculate_work_hours a.checkIn a.checkOut
      ∧ uniqueKeys ((mark_attendance s a g).stateOf).attendance
      ∧ (recordIds ((mark_attendance s a g).stateOf).attendance).Nodup
      ∧ (∀ x ∈ recordIds ((mark_attendance s a g).stateOf).attendance,
          x ∈ recordIds s.attendance ∨ x = g)
      ∧ ((mark_attendance s a g).stateOf).employees = s.employees := by
  obtain ⟨emp, hfe⟩ := Option.isSome_iff_exists.mp hemp
  cases hfa : s.attendance.find? (fun record =>
      record.employeeId == a.employeeId && record.date == a.date) with
  | none =>
    have hnomatch : ∀ x ∈ s.attendance,
        (x.employeeId == a.employeeId && x.date == a.date) = false := by
      intro x hx
      have := List.find?_eq_none.mp hfa x hx
      simpa using this
    have hstate : (mark_attendance s a g).stateOf
        = { s with attendance := s.attendance ++ [newAttendanceRecord emp a g] } := by
      simp only [mark_attendance, hfe, hfa, ApiResult.stateOf, newAttendanceRecord]
    rw [hstate]
    refine ⟨newAttendanceRecord emp a g, ?_, rfl, rfl, rfl, rfl, rfl, ?_, ?_, ?_, rfl⟩
    · show (s.attendance ++ [newAttendanceRecord emp a g]).filter
          (fun x => x.employeeId == a.employeeId && x.date == a.date)
          = [newAttendanceRecord emp a g]
      rw [List.filter_append,
        List.filter_eq_nil_iff.mpr (fun x hx => by simp [hnomatch x hx])]
      simp [newAttendanceRecord]
    · show uniqueKeys (s.attendance ++ [_])
      refine uniqueKeys_append_fresh _ _ ?_ hkeys
      rintro x hx ⟨h1, h2⟩
      have hfx := hnomatch x hx
      rw [show (newAttendanceRecord emp a g).employeeId = a.employeeId from rfl] at h1
      rw [show (newAttendanceRecord emp a g).date = a.date from rfl] at h2
      rw [h1, h2] at hfx
      simp at hfx
    · show (recordIds (s.attendance ++ [_])).Nodup
      unfold recordIds at *
      rw [List.map_append, List.map_cons, List.map_nil, List.nodup_append]
      refine ⟨hids, List.nodup_singleton _, ?_⟩
      intro p hp hp1
      rw [List.mem_singleton] at hp1
      subst hp1
      exact hg hp
    · intro x hx
      rw [show recordIds (s.attendance ++ [newAttendanceRecord emp a g])
          = recordIds s.attendance ++ [g] from by
        unfold recordIds newAttendanceRecord
        rw [List.map_append, List.map_cons, List.map_nil]] at hx
      rw [List.mem_append] at hx
      rcases hx with hx | hx
      · exact Or.inl hx
      · rw [List.mem_singleton] at hx
        exact Or.inr hx
  | some ex =>
    have hpx := List.find?_some hfa
    simp only [Bool.and_eq_true, beq_iff_eq] at hpx
    have hexm : ex ∈ s.attendance := List.mem_of_find?_eq_some hfa
    have hids2 : (s.attendance.map (fun r : AttendanceRecord => r.id)).Nodup := hids
    obtain ⟨l₁, l₂, hsplit, hl₁, hl₂⟩ :=
      mem_nodup_split (fun r : AttendanceRecord => r.id) s.attendance ex hexm hids2
    have hkey_ne : ∀ x ∈ l₁ ++ l₂,
        ¬(x.employeeId = ex.employeeId ∧ x.date = ex.date) := by
      have hk := hkeys
      unfold uniqueKeys attendanceKeys at hk
      rw [hsplit, List.map_append, List.map_cons, List.nodup_middle,
        List.nodup_cons] at hk
      rintro x hx ⟨h1, h2⟩
      refine hk.1 ?_
      rw [← List.map_append]
      exact List.mem_map.mpr ⟨x, hx, by rw [h1, h2]⟩
    have hbump :
        bumpFirst (fun record => record.id == ex.id) (applyAttendanceUpdate a)
          s.attendance = l₁ ++ applyAttendanceUpdate a ex :: l₂ := by
      rw [hsplit]
      exact bumpFirst_unique _ _ l₁ l₂ ex (by simp)
        (fun x hx => by simp [beq_eq_false_iff_ne, hl₁ x hx])
    have hfalse : ∀ x ∈ l₁ ++ l₂,
        (x.employeeId == a.employeeId && x.date == a.date) = false := by
      intro x hx
      cases hb : (x.employeeId == a.employeeId && x.date == a.date) with
      | false => rfl
      | true =>
        rw [Bool.and_eq_true, beq_iff_eq, beq_iff_eq] at hb
        exact absurd ⟨hb.1.trans hpx.1.symm, hb.2.trans hpx.2.symm⟩ (hkey_ne x hx)
    have hstate : (mark_attendance s a g).stateOf
        = { s with attendance := l₁ ++ applyAttendanceUpdate a ex :: l₂ } := by
      simp only [mark_attendance, hfe, hfa, ApiResult.stateOf, hbump]
    have hideq : recordIds (l₁ ++ applyAttendanceUpdate a ex :: l₂)
        = recordIds (l₁ ++ ex :: l₂) := by
      unfold recordIds
      rw [List.map_append, List.map_append, List.map_cons, List.map_cons]
      rfl
    rw [hstate]
    refine ⟨applyAttendanceUpdate a ex, ?_, rfl, rfl, rfl, rfl, rfl, ?_, ?_, ?_, rfl⟩
    · show (l₁ ++ applyAttendanceUpdate a ex :: l₂).filter
          (fun x => x.employeeId == a.employeeId && x.date == a.date) = _
      rw [List.filter_append,
        List.filter_eq_nil_iff.mpr
          (fun x hx => by simp [hfalse x (List.mem_append_left _ hx)]),
        List.filter_cons_of_pos
          (by simp [applyAttendanceUpdate, hpx.1, hpx.2]),
        List.filter_eq_nil_iff.mpr
          (fun x hx => by simp [hfalse x (List.mem_append_right _ hx)])]
      rfl
    · show uniqueKeys (l₁ ++ applyAttendanceUpdate a ex :: l₂)
      have hkeq : attendanceKeys (l₁ ++ applyAttendanceUpdate a ex :: l₂)
          = attendanceKeys (l₁ ++ ex :: l₂) := by
        unfold attendanceKeys
        rw [List.map_append, List.map_append, List.map_cons, List.map_cons]
        rfl
      unfold uniqueKeys
      rw [hkeq, ← hsplit]
      exact hkeys
    · show (recordIds (l₁ ++ applyAttendanceUpdate a ex :: l₂)).Nodup
      rw [hideq, ← hsplit]
      exact hids
    · intro x hx
      rw [show ({ s with attendance := l₁ ++ applyAttendanceUpdate a ex :: l₂ }
            : State).attendance = l₁ ++ applyAttendanceUpdate a ex :: l₂ from rfl,
        hideq, ← hsplit] at hx
      exact Or.inl hx

/-- C5: at most one attendance record per (employeeId, date): any upsert
preserves the invariant, and two upserts for the same employee and date
(values possibly different) leave exactly one record for that pair, carrying
the second call's checkIn/checkOut/status/location and its recomputed
workHours. -/
theorem mark_attendance_upsert_unique :
    (∀ (s : State) (a : AttendanceCreate) (gid : String),
      uniqueKeys s.attendance →
      uniqueKeys ((mark_attendance s a gid).stateOf).attendance)
    ∧ (∀ (s : State) (a1 a2 : AttendanceCreate) (g1 g2 : String),
      a2.employeeId = a1.employeeId → a2.date = a1.date →
      (s.employees.find? (fun emp => emp.id == a1.employeeId)).isSome →
      uniqueKeys s.attendance →
      (recordIds s.attendance).Nodup →
      g1 ∉ recordIds s.attendance → g2 ∉ recordIds s.attendance → g2 ≠ g1 →
      ∃ r,
        ((mark_attendance ((mark_attendance s a1 g1).stateOf) a2 g2).stateOf).attendance.filter
            (fun x => x.employeeId == a1.employeeId && x.date == a1.date) = [r]
        ∧ r.checkIn = a2.checkIn ∧ r.checkOut = a2.checkOut ∧ r.status = a2.status
        ∧ r.location = a2.location
        ∧ r.workHours = calculate_work_hours a2.checkIn a2.checkOut) := by
  constructor
  · intro s a gid h
    cases hfe : s.employees.find? (fun emp => emp.id == a.employeeId) with
    | none =>
      simp only [mark_attendance, hfe, ApiResult.stateOf]
      exact h
    | some emp =>
      cases hfa : s.attendance.find? (fun record =>
          record.employeeId == a.employeeId && record.date == a.date) with
      | some ex =>
        simp only [mark_attendance, hfe, hfa, ApiResult.stateOf]
        show uniqueKeys (bumpFirst _ _ s.attendance)
        unfold uniqueKeys attendanceKeys
        rw [bumpFirst_map (fun record => record.id == ex.id)
          (applyAttendanceUpdate a) (fun r => (r.employeeId, r.date))
          (fun x => rfl)]
        exact h
      | none =>
        simp only [mark_attendance, hfe, hfa, ApiResult.stateOf]
        show uniqueKeys (s.attendance ++ [_])
        refine uniqueKeys_append_fresh _ _ ?_ h
        rintro x hx ⟨h1, h2⟩
        have hfx := List.find?_eq_none.mp hfa x hx
        simp at h1 h2
        exact hfx (by simp [h1, h2])
  · intro s a1 a2 g1 g2 he hd hemp hkeys hids hg1 hg2 hne
    obtain ⟨r1, hf1, hb1, hb2, hb3, hb4, hb5, hk1, hid1, hsub1, hemps1⟩ :=
      mark_attendance_post s a1 g1 hemp hkeys hids hg1
    have hemp2 : (((mark_attendance s a1 g1).stateOf).employees.find?
        (fun emp => emp.id == a2.employeeId)).isSome := by
      rw [he, hemps1]
      exact hemp
    have hg2' : g2 ∉ recordIds ((mark_attendance s a1 g1).stateOf).attendance := by
      intro hmem
      rcases hsub1 g2 hmem with hm | hm
      · exact hg2 hm
      · exact hne hm
    obtain ⟨r2, hf2, hc1, hc2, hc3, hc4, hc5, _, _, _, _⟩ :=
      mark_attendance_post ((mark_attendance s a1 g1).stateOf) a2 g2 hemp2 hk1 hid1 hg2'
    rw [he, hd] at hf2
    exact ⟨r2, hf2, hc1, hc2, hc3, hc4, hc5⟩

instance (l : List AttendanceRecord) : Decidable (uniqueKeys l) :=
  List.nodupDecidable (attendanceKeys l)

def wAtt1 : AttendanceCreate :=
  { employeeId := "1", date := "2030-01-01", checkIn := some "09:00",
    checkOut := some "18:00", status := "present", location := none }

def wAtt2 : AttendanceCreate :=
  { employeeId := "1", date := "2030-01-01", checkIn := some "10:00",
    checkOut := some "12:00", status := "late", location := none }

theorem mark_attendance_upsert_unique_witness :
    uniqueKeys (seedState "2024-06-01" "2024-05-31").attendance
    ∧ ∃ r,
      ((mark_attendance ((mark_attendance (seedState "2024-06-01" "2024-05-31")
          wAtt1 "g1").stateOf) wAtt2 "g2").stateOf).attendance.filter
          (fun x => x.employeeId == wAtt1.employeeId && x.date == wAtt1.date) = [r]
      ∧ r.checkIn = wAtt2.checkIn ∧ r.checkOut = wAtt2.checkOut
      ∧ r.status = wAtt2.status ∧ r.location = wAtt2.location
      ∧ r.workHours = calculate_work_hours wAtt2.checkIn wAtt2.checkOut :=
  ⟨by decide,
    mark_attendance_upsert_unique.2 (seedState "2024-06-01" "2024-05-31")
      wAtt1 wAtt2 "g1" "g2" rfl rfl (by decide) (by decide) (by decide)
      (by decide) (by decide) (by decide)⟩

/-! ## C2: the statistics attendance percentage -/

theorem pyRound_nonneg (q : ℚ) (h : 0 ≤ q) : 0 ≤ pyRound q := by
  unfold pyRound
  have hf : (0:ℤ) ≤ ⌊q⌋ := Int.floor_nonneg.mpr h
  split
  · exact hf
  split
  · omega
  split <;> omega

theorem pyRound_le (q : ℚ) (b : ℤ) (h : q ≤ (b : ℚ)) : pyRound q ≤ b := by
  unfold pyRound
  have hfb : ⌊q⌋ ≤ b := by
    have hm := Int.floor_le_floor h
    rwa [Int.floor_intCast] at hm
  split
  · exact hfb
  · rename_i h1
    push_neg at h1
    have hflt : ⌊q⌋ < b := by
      have hfq : (⌊q⌋ : ℚ) + 1 / 2 ≤ q := by linarith
      have hlt : (⌊q⌋ : ℚ) < (b : ℚ) := by linarith
      exact_mod_cast hlt
    split
    · omega
    split <;> omega

theorem pyRound_intCast (n : ℤ) : pyRound ((n : ℚ)) = n := by
  unfold pyRound
  rw [Int.floor_intCast, sub_self, if_pos (by norm_num)]

theorem round1_nonneg (q : ℚ) (h : 0 ≤ q) : 0 ≤ round1 q := by
  unfold round1
  have h0 : (0:ℤ) ≤ pyRound (q * 10) := pyRound_nonneg _ (by linarith)
  exact div_nonneg (by exact_mod_cast h0) (by norm_num)

theorem round1_le_100 (q : ℚ) (h : q ≤ 100) : round1 q ≤ 100 := by
  unfold round1
  have h1 : pyRound (q * 10) ≤ (1000:ℤ) := pyRound_le _ _ (by push_cast; linarith)
  have h2 : ((pyRound (q * 10) : ℚ)) ≤ 1000 := by exact_mod_cast h1
  linarith

/-- C2 (amended): the reported attendance percentage equals
`round((present+late)/max(totalEmployees,1)*100, 1)` over today's records
(0 when there are no employees), it is never negative, and it is at most 100
whenever today's present+late record count does not exceed
`max(totalEmployees,1)` — deleting employees after attendance was marked can
push it above 100, so the unconditional upper bound fails. -/
theorem statistics_percentage_bounds :
    ∀ (s : State) (today : String),
      (get_statistics s today).attendance.percentage
        = round1 (if s.employees.length > 0 then
            ((((s.attendance.filter (fun record => record.date == today)).filter
                  (fun record => record.status == "present")).length
               + ((s.attendance.filter (fun record => record.date == today)).filter
                  (fun record => record.status == "late")).length : Nat) : ℚ)
              / ((max s.employees.length 1 : Nat) : ℚ) * 100
          else 0)
      ∧ 0 ≤ (get_statistics s today).attendance.percentage
      ∧ ((((s.attendance.filter (fun record => record.date == today)).filter
              (fun record => record.status == "present")).length
            + ((s.attendance.filter (fun record => record.date == today)).filter
              (fun record => record.status == "late")).length)
          ≤ max s.employees.length 1 →
        (get_statistics s today).attendance.percentage ≤ 100) := by
  intro s today
  have hpeq : (get_statistics s today).attendance.percentage
      = round1 (if s.employees.length > 0 then
          ((((s.attendance.filter (fun record => record.date == today)).filter
                (fun record => record.status == "present")).length
             + ((s.attendance.filter (fun record => record.date == today)).filter
                (fun record => record.status == "late")).length : Nat) : ℚ)
            / ((max s.employees.length 1 : Nat) : ℚ) * 100
        else 0) := rfl
  have hq0 : (0:ℚ) ≤ (if s.employees.length > 0 then
      ((((s.attendance.filter (fun record => record.date == today)).filter
            (fun record => record.status == "present")).length
         + ((s.attendance.filter (fun record => record.date == today)).filter
            (fun record => record.status == "late")).length : Nat) : ℚ)
        / ((max s.employees.length 1 : Nat) : ℚ) * 100
    else 0) := by
    split
    · exact mul_nonneg (div_nonneg (by positivity) (by positivity)) (by norm_num)
    · exact le_refl 0
  refine ⟨hpeq, ?_, ?_⟩
  · rw [hpeq]
    exact round1_nonneg _ hq0
  · intro hcnt
    rw [hpeq]
    apply round1_le_100
    split
    · have hP : ((((s.attendance.filter (fun record => record.date == today)).filter
            (fun record => record.status == "present")).length
           + ((s.attendance.filter (fun record => record.date == today)).filter
            (fun record => record.status == "late")).length : Nat) : ℚ)
          ≤ ((max s.employees.length 1 : Nat) : ℚ) := by
        exact_mod_cast hcnt
      have hpos : (0:ℚ) < ((max s.employees.length 1 : Nat) : ℚ) := by
        have h1 : (1:Nat) ≤ max s.employees.length 1 := le_max_right _ _
        exact_mod_cast Nat.lt_of_lt_of_le Nat.zero_lt_one h1
      have hdiv : ((((s.attendance.filter (fun record => record.date == today)).filter
            (fun record => record.status == "present")).length
           + ((s.attendance.filter (fun record => record.date == today)).filter
            (fun record => record.status == "late")).length : Nat) : ℚ)
          / ((max s.employees.length 1 : Nat) : ℚ) ≤ 1 :=
        (div_le_one hpos).mpr hP
      linarith
    · norm_num

theorem statistics_percentage_bounds_witness :
    ((((seedState "2024-06-01" "2024-05-31").attendance.filter
          (fun record => record.date == "2024-06-01")).filter
          (fun record => record.status == "present")).length
       + (((seedState "2024-06-01" "2024-05-31").attendance.filter
          (fun record => record.date == "2024-06-01")).filter
          (fun record => record.status == "late")).length
      ≤ max (seedState "2024-06-01" "2024-05-31").employees.length 1)
    ∧ (get_statistics (seedState "2024-06-01" "2024-05-31")
        "2024-06-01").attendance.percentage ≤ 100 :=
  ⟨by decide,
    (statistics_percentage_bounds (seedState "2024-06-01" "2024-05-31")
      "2024-06-01").2.2 (by decide)⟩

/-- Six `DELETE /employees/{id}` calls applied to the seed state, leaving
only employee "1" while today's five attendance records stay on file. -/
def cxDel2 : State := (delete_employee (seedState "2024-06-01" "2024-05-31") "2").stateOf
def cxDel3 : State := (delete_employee cxDel2 "3").stateOf
def cxDel4 : State := (delete_employee cxDel3 "4").stateOf
def cxDel5 : State := (delete_employee cxDel4 "5").stateOf
def cxDel6 : State := (delete_employee cxDel5 "6").stateOf
def cxStatsState : State := (delete_employee cxDel6 "7").stateOf

/-- C2 counterexample: the state reached from the seed by deleting employees
2..7 still holds 2 `present` and 1 `late` records for the seed day, but only
1 employee, so the reported attendance percentage is 300 — outside [0,100]. -/
theorem statistics_percentage_counterexample :
    Reachable cxStatsState
    ∧ (get_statistics cxStatsState "2024-06-01").attendance.percentage = 300
    ∧ ¬((get_statistics cxStatsState "2024-06-01").attendance.percentage ≤ 100) := by
  have hval : (get_statistics cxStatsState "2024-06-01").attendance.percentage = 300 := by
    have hpeq : (get_statistics cxStatsState "2024-06-01").attendance.percentage
        = round1 (if cxStatsState.employees.length > 0 then
            ((((cxStatsState.attendance.filter (fun record => record.date == "2024-06-01")).filter
                  (fun record => record.status == "present")).length
               + ((cxStatsState.attendance.filter (fun record => record.date == "2024-06-01")).filter
                  (fun record => record.status == "late")).length : Nat) : ℚ)
              / ((max cxStatsState.employees.length 1 : Nat) : ℚ) * 100
          else 0) := rfl
    have e1 : cxStatsState.employees.length = 1 := by decide
    have e2 : ((cxStatsState.attendance.filter (fun record => record.date == "2024-06-01")).filter
        (fun record => record.status == "present")).length = 2 := by decide
    have e3 : ((cxStatsState.attendance.filter (fun record => record.date == "2024-06-01")).filter
        (fun record => record.status == "late")).length = 1 := by decide
    rw [hpeq, e1, e2, e3, if_pos (by norm_num : (1:Nat) > 0)]
    have harith : (((2 + 1 : Nat) : ℚ)) / ((max 1 1 : Nat) : ℚ) * 100 = 300 := by
      norm_num
    rw [harith]
    unfold round1
    rw [show ((300:ℚ) * 10) = ((3000:ℤ) : ℚ) from by norm_num, pyRound_intCast]
    norm_num
  refine ⟨?_, hval, ?_⟩
  · exact Reachable.step (Reachable.step (Reachable.step (Reachable.step
      (Reachable.step (Reachable.step (Reachable.seed "2024-06-01" "2024-05-31")
        (Step.deleteEmployee _ "2")) (Step.deleteEmployee _ "3"))
      (Step.deleteEmployee _ "4")) (Step.deleteEmployee _ "5"))
      (Step.deleteEmployee _ "6")) (Step.deleteEmployee _ "7")
  · rw [hval]
    norm_num

/-! ## Concrete witnesses -/

def wDeptIT : Department :=
  { id := "1", name := "IT bo'limi", departmentNumber := "IT-001", districtId := "1",
    districtName := "Toshkent tumani", manager := "Karimov Sardor", employeeCount := 3,
    description := "Dasturlash va texnik yordam", createdAt := "2024-02-01T10:00:00" }

def wEmpIn : EmployeeIn :=
  { name := "Test Xodim", phone := "+998900000000", photo := "", position := "Dev",
    departmentId := "1", departmentName := "", departmentNumber := "",
    districtName := "", email := "", status := "active" }

def wDistrictPatch : DistrictPatch :=
  { id := some "X", createdAt := some "tX" }

theorem create_department_checks_witness :
    (∀ d ∈ cxStateFresh.departments,
      ¬(d.departmentNumber = cxDeptIn.departmentNumber ∧ d.districtId = cxDeptIn.districtId))
    ∧ ∃ nd, create_department cxStateFresh cxDeptIn "gid2" "t2"
        = .ok nd { cxStateFresh with departments := cxStateFresh.departments ++ [nd] }
      ∧ nd.districtName = cxDistrict1.name
      ∧ nd.employeeCount = cxDeptIn.employeeCount
      ∧ nd.departmentNumber = cxDeptIn.departmentNumber
      ∧ nd.districtId = cxDeptIn.districtId
      ∧ nd.id = "gid2" ∧ nd.createdAt = "t2" :=
  ⟨by decide,
    (create_department_checks cxStateFresh cxDeptIn "gid2" "t2").2.2 cxDistrict1
      (by decide) (by decide)⟩

theorem create_employee_increments_count_witness :
    ((∀ emp ∈ (seedState "2024-06-01" "2024-05-31").employees, emp.phone ≠ wEmpIn.phone)
      ∧ (seedState "2024-06-01" "2024-05-31").departments.find?
          (fun d => d.id == wEmpIn.departmentId) = some wDeptIT)
    ∧ ∃ emp st,
      create_employee (seedState "2024-06-01" "2024-05-31") wEmpIn "gidE" "tE"
        = .ok emp st
      ∧ emp.departmentName = wDeptIT.name
      ∧ emp.departmentNumber = wDeptIT.departmentNumber
      ∧ emp.districtName = wDeptIT.districtName
      ∧ st.employees = (seedState "2024-06-01" "2024-05-31").employees ++ [emp]
      ∧ st.departments.find? (fun d => d.id == wEmpIn.departmentId)
          = some { wDeptIT with employeeCount := wDeptIT.employeeCount + 1 } :=
  ⟨⟨by decide, by decide⟩,
    create_employee_increments_count (seedState "2024-06-01" "2024-05-31") wEmpIn
      "gidE" "tE" wDeptIT (by decide) (by decide)⟩

theorem delete_district_conflict_or_idempotent_witness :
    ((∀ dept ∈ cxStateFresh.departments, dept.districtId ≠ "99")
      ∧ (∀ d ∈ cxStateFresh.districts, d.id ≠ "99"))
    ∧ delete_district cxStateFresh "99" = .ok () cxStateFresh :=
  ⟨⟨by decide, by decide⟩,
    (delete_district_conflict_or_idempotent cxStateFresh "99").2.2
      (by decide) (by decide)⟩

theorem mutating_endpoints_atomic_on_error_witness :
    update_district cxStateDup "zz" {} = .err ⟨404, "Tuman topilmadi"⟩ cxStateDup
    ∧ cxStateDup = cxStateDup :=
  ⟨by decide,
    mutating_endpoints_atomic_on_error.2.1 cxStateDup "zz" {}
      ⟨404, "Tuman topilmadi"⟩ cxStateDup (by decide)⟩

theorem update_patch_no_field_protection_witness :
    (cxDistrict1 ∈ cxStateFresh.districts ∧ ("X" : String) ≠ cxDistrict1.id)
    ∧ ∃ d2 s1, update_district cxStateFresh cxDistrict1.id wDistrictPatch = .ok d2 s1
      ∧ d2.id = "X" ∧ d2.createdAt = "tX"
      ∧ ∃ e s2, update_district s1 cxDistrict1.id wDistrictPatch = .err e s2
          ∧ e.status = 404 :=
  ⟨⟨by decide, by decide⟩,
    update_patch_no_field_protection.1 cxStateFresh cxDistrict1 wDistrictPatch
      wDistrictPatch "X" "tX" (by decide) (by decide) rfl rfl (by decide)⟩
